import Mathlib

/-!
Verification of the CMEMS Opendap client (`src/metoceanproviders/cmems.py`).

The module is a thin client around an authenticated remote dataset handle:
session establishment (`Opendap.__init__`, `_copernicusmarine_datastore`),
a one-time de-duplication of the time axis, coordinate/variable subsetting
(`Opendap.crop`) and export (`to_netcdf` / `to_daily_netcdf`).

This file shallowly embeds those operations:

* time coordinates are modelled as `Int` (seconds since the epoch; numpy
  `datetime64` values converted with `astype("timedelta64[s]")` behave as
  whole-second integers), spatial coordinates as `ℚ` (the float arithmetic
  performed by the source is plain subtraction/addition/comparison, embedded
  exactly over the rationals);
* the remote service is abstracted by explicit oracles: a `fits : Bool` flag
  for whether an eager `ds.load()` / single-file write succeeds (the CMEMS
  size cap), and a cookie jar for what the CAS endpoint returned;
* effects (`print`, warning messages, file writes) are returned as data.
-/

/-! ### Time axis and the load-time de-duplication (`Opendap.__init__`, lines 105-110)

`np.unique(self.ds["time"], return_index=True)` returns the distinct time
values in ascending order together with the index of the *first* occurrence
of each value; `self.ds.isel(time=index)` then keeps exactly those rows.
A one-dimensional view suffices here: the pass acts along the time axis only,
so we carry one data value per time sample. -/

/-- A dataset seen along its time axis: a time coordinate and one data value
per time sample (the remaining axes ride along unchanged under `isel(time=...)`
and `groupby("time.date")`). -/
structure TimeSeries where
  times : List Int
  vals  : List Int
deriving DecidableEq, Repr

/-- `np.unique(ts)`: the distinct values of `ts` in ascending order. -/
def uniqueVals (ts : List Int) : List Int :=
  List.insertionSort (· ≤ ·) ts.dedup

/-- The `index` component of `np.unique(ts, return_index=True)`: for each
distinct value (in ascending order) the index of its first occurrence. -/
def uniqueFirstIdx (ts : List Int) : List Nat :=
  (uniqueVals ts).map (fun v => List.indexOf v ts)

/-- Lines 105-110 of `Opendap.__init__`: if the time axis has repeated values,
keep only the first occurrence of each distinct value (via
`np.unique(..., return_index=True)` and `isel(time=index)`); otherwise leave
the dataset untouched. -/
def dedupRepeatedTimes (s : TimeSeries) : TimeSeries :=
  if (uniqueVals s.times).length ≠ s.times.length then
    { times := (uniqueFirstIdx s.times).map (fun i => s.times.getD i 0),
      vals  := (uniqueFirstIdx s.times).map (fun i => s.vals.getD i 0) }
  else s

/-! ### The dataset handle and `Opendap.crop` (lines 113-193)

The handle is a labelled multidimensional array with axes time, longitude,
latitude, depth and named data variables.  Each variable's cells are indexed
by positions along the four axes.  `sel` with a slice keeps, on a
monotonically increasing axis, exactly the samples inside the inclusive
bounds; `sel` with a scalar and `method="nearest"` keeps the single nearest
sample (ties broken toward the larger index, as pandas does). -/

/-- The dataset handle `self.ds`: coordinate values for the four named axes
and the named data variables, each variable's cells indexed by position along
(time, longitude, latitude, depth). -/
structure Dataset where
  time      : List Int
  longitude : List ℚ
  latitude  : List ℚ
  depth     : List ℚ
  vars      : List (String × (Nat → Nat → Nat → Nat → ℚ))

/-- The names of the data variables of a handle. -/
def varNames (ds : Dataset) : List String :=
  ds.vars.map Prod.fst

/-- A per-axis selector as passed to `crop`: either a Python `slice(start, stop)`
or a single scalar value. -/
inductive CropSel (α : Type) where
  | sl (start stop : α) : CropSel α
  | pt (v : α) : CropSel α
deriving DecidableEq, Repr

/-- `np.diff`: successive differences of a coordinate array. -/
def diffs {α : Type} [Sub α] : List α → List α
  | a :: b :: rest => (b - a) :: diffs (b :: rest)
  | _ => []

/-- Original indices of the elements satisfying `p` (the positional indexer
behind a label-based range selection). -/
def keepIdx {α : Type} (p : α → Bool) (xs : List α) : List Nat :=
  (xs.enum.filter (fun iv => p iv.2)).map Prod.fst

/-- Distance from `x` to the requested label `v`. -/
def distTo {α : Type} [LinearOrder α] [Sub α] (v x : α) : α :=
  if x ≤ v then v - x else x - v

/-- Index of the sample nearest to `v` (pandas `method="nearest"`; tied
distances resolve to the larger index). -/
def nearestIdx {α : Type} [LinearOrder α] [Sub α] (xs : List α) (v : α) : Nat :=
  match xs.enum.foldl (fun best iv =>
      match best with
      | none => some iv
      | some b => if distTo v iv.2 ≤ distTo v b.2 then some iv else some b) none with
  | some b => b.1
  | none => 0

/-- `self.ds.sel(time=slice(a, b))`: keep the time samples inside the
inclusive bounds, and the corresponding rows of every variable. -/
def selTimeRange (ds : Dataset) (a b : Int) : Dataset :=
  let p : Int → Bool := fun t => decide (a ≤ t) && decide (t ≤ b)
  let keep := keepIdx p ds.time
  { ds with time := ds.time.filter p,
            vars := ds.vars.map (fun nv => (nv.1, fun i j k l => nv.2 (keep.getD i 0) j k l)) }

/-- `self.ds.sel(time=v, method="nearest")`. -/
def selTimeNearest (ds : Dataset) (v : Int) : Dataset :=
  let i := nearestIdx ds.time v
  { ds with time := [ds.time.getD i 0],
            vars := ds.vars.map (fun nv => (nv.1, fun _ j k l => nv.2 i j k l)) }

/-- `self.ds.sel(longitude=slice(a, b))`. -/
def selLonRange (ds : Dataset) (a b : ℚ) : Dataset :=
  let p : ℚ → Bool := fun x => decide (a ≤ x) && decide (x ≤ b)
  let keep := keepIdx p ds.longitude
  { ds with longitude := ds.longitude.filter p,
            vars := ds.vars.map (fun nv => (nv.1, fun i j k l => nv.2 i (keep.getD j 0) k l)) }

/-- `self.ds.sel(longitude=v, method="nearest")`. -/
def selLonNearest (ds : Dataset) (v : ℚ) : Dataset :=
  let j := nearestIdx ds.longitude v
  { ds with longitude := [ds.longitude.getD j 0],
            vars := ds.vars.map (fun nv => (nv.1, fun i _ k l => nv.2 i j k l)) }

/-- `self.ds.sel(latitude=slice(a, b))`. -/
def selLatRange (ds : Dataset) (a b : ℚ) : Dataset :=
  let p : ℚ → Bool := fun x => decide (a ≤ x) && decide (x ≤ b)
  let keep := keepIdx p ds.latitude
  { ds with latitude := ds.latitude.filter p,
            vars := ds.vars.map (fun nv => (nv.1, fun i j k l => nv.2 i j (keep.getD k 0) l)) }

/-- `self.ds.sel(latitude=v, method="nearest")`. -/
def selLatNearest (ds : Dataset) (v : ℚ) : Dataset :=
  let k := nearestIdx ds.latitude v
  { ds with latitude := [ds.latitude.getD k 0],
            vars := ds.vars.map (fun nv => (nv.1, fun i j _ l => nv.2 i j k l)) }

/-- The error xarray raises for `self.ds.sel(detph=...)`: the handle has no
axis named `detph` (the source misspells `depth` in both depth branches). -/
def detphMsg : String := "dimensions or multi-index levels [detph] do not exist"

/-- The error numpy raises for `np.diff(coords).max()` on an axis with fewer
than two samples. -/
def emptyDiffMsg : String := "zero-size array to reduction operation maximum"

/-- Lines 136-148: under the default `"neareast_outside"` method a time
`slice(start, stop)` is widened by the maximum observed time spacing
`np.diff(self.ds["time"].values).max()` on each side; scalar and absent
selectors pass through unchanged. -/
def adjustTimes (ds : Dataset) (times : Option (CropSel Int)) (method : String) :
    Except String (Option (CropSel Int)) :=
  if method = "neareast_outside" then
    match times with
    | some (CropSel.sl a b) =>
      match (diffs ds.time).max? with
      | some d => Except.ok (some (CropSel.sl (a - d) (b + d)))
      | none => Except.error emptyDiffMsg
    | other => Except.ok other
  else Except.ok times

/-- Lines 150-154: the same widening for a longitude slice, by
`np.diff(self.ds["longitude"].values).max()`. -/
def adjustLons (ds : Dataset) (longitudes : Option (CropSel ℚ)) (method : String) :
    Except String (Option (CropSel ℚ)) :=
  if method = "neareast_outside" then
    match longitudes with
    | some (CropSel.sl a b) =>
      match (diffs ds.longitude).max? with
      | some d => Except.ok (some (CropSel.sl (a - d) (b + d)))
      | none => Except.error emptyDiffMsg
    | other => Except.ok other
  else Except.ok longitudes

/-- Lines 156-160: the same widening for a latitude slice, by
`np.diff(self.ds["latitude"].values).max()`. -/
def adjustLats (ds : Dataset) (latitudes : Option (CropSel ℚ)) (method : String) :
    Except String (Option (CropSel ℚ)) :=
  if method = "neareast_outside" then
    match latitudes with
    | some (CropSel.sl a b) =>
      match (diffs ds.latitude).max? with
      | some d => Except.ok (some (CropSel.sl (a - d) (b + d)))
      | none => Except.error emptyDiffMsg
    | other => Except.ok other
  else Except.ok latitudes

/-- Lines 133-160 of `crop` as a whole: the selector-adjustment block.  Only
time, longitude and latitude slices are widened (the source computes buffers
for dt, dx, dy only); the depth selector is returned exactly as supplied. -/
def adjustSelectors (ds : Dataset) (times : Option (CropSel Int))
    (longitudes latitudes depths : Option (CropSel ℚ)) (method : String) :
    Except String (Option (CropSel Int) × Option (CropSel ℚ) × Option (CropSel ℚ) × Option (CropSel ℚ)) :=
  match adjustTimes ds times method with
  | Except.error e => Except.error e
  | Except.ok t =>
    match adjustLons ds longitudes method with
    | Except.error e => Except.error e
    | Except.ok lo =>
      match adjustLats ds latitudes method with
      | Except.error e => Except.error e
      | Except.ok la => Except.ok (t, lo, la, depths)

/-- Lines 162-185: apply the (already adjusted) selectors in the source's
order: time, then longitude, then latitude, then depth.  The depth branch
reproduces the source's `self.ds.sel(detph=depths)` / `sel(detph=depths,
method="nearest")`: the axis name is misspelled, so xarray raises whenever a
depth selector is supplied. -/
def applySels (ds : Dataset) (times : Option (CropSel Int))
    (longitudes latitudes depths : Option (CropSel ℚ)) : Except String Dataset :=
  let ds1 := match times with
    | none => ds
    | some (CropSel.sl a b) => selTimeRange ds a b
    | some (CropSel.pt v) => selTimeNearest ds v
  let ds2 := match longitudes with
    | none => ds1
    | some (CropSel.sl a b) => selLonRange ds1 a b
    | some (CropSel.pt v) => selLonNearest ds1 v
  let ds3 := match latitudes with
    | none => ds2
    | some (CropSel.sl a b) => selLatRange ds2 a b
    | some (CropSel.pt v) => selLatNearest ds2 v
  match depths with
  | none => Except.ok ds3
  | some _ => Except.error detphMsg

/-- Lines 188-189: `self.ds = self.ds.get(variables)`.  `xarray.Dataset` is a
`Mapping`, so `.get` returns the selection `ds[variables]` when every name
exists and silently returns the default `None` when any name is missing
(`ds[list]` raises `KeyError`, which `Mapping.get` swallows). -/
def dsGetVars (ds : Dataset) (vs : List String) : Option Dataset :=
  if vs.all (fun v => (varNames ds).contains v) then
    some { ds with vars := vs.filterMap (fun n => ds.vars.find? (fun nv => nv.1 == n)) }
  else none

/-- The warning printed by the bare `except:` around `self.ds.load()`. -/
def tooBigMsg : String := "Too big to be loaded in one request!"

/-- The outcome of a `crop` call: the new value of `self.ds` (`none` models
the Python `None` left behind by a failed variable lookup), whether the eager
`load()` succeeded, and the warnings printed along the way. -/
structure CropResult where
  ds       : Option Dataset
  loaded   : Bool
  warnings : List String

/-- Lines 133-189 of `Opendap.crop`: selector adjustment, axis narrowing and
variable projection, before the final load attempt. -/
def cropCore (ds : Dataset) (vlist : Option (List String))
    (times : Option (CropSel Int)) (longitudes latitudes depths : Option (CropSel ℚ))
    (method : String) : Except String (Option Dataset) :=
  match adjustSelectors ds times longitudes latitudes depths method with
  | Except.error e => Except.error e
  | Except.ok (t, lo, la, de) =>
    match applySels ds t lo la de with
    | Except.error e => Except.error e
    | Except.ok ds1 =>
      Except.ok (match vlist with
        | none => some ds1
        | some vs => dsGetVars ds1 vs)

/-- `Opendap.crop` (lines 113-193).  `fits` is the environment oracle for the
final `try: self.ds.load() except: print(...)`: the eager realization
succeeds exactly when a handle is present and the narrowed data fits a single
transfer; any load failure is swallowed and reported as the size warning. -/
def crop (ds : Dataset) (fits : Bool) (vlist : Option (List String))
    (times : Option (CropSel Int)) (longitudes latitudes depths : Option (CropSel ℚ))
    (method : String) : Except String CropResult :=
  match cropCore ds vlist times longitudes latitudes depths method with
  | Except.error e => Except.error e
  | Except.ok o =>
    if o.isSome && fits then Except.ok { ds := o, loaded := true, warnings := [] }
    else Except.ok { ds := o, loaded := false, warnings := [tooBigMsg] }

/-! ### Export: `Opendap.to_netcdf` and `to_daily_netcdf` (lines 195-222)

`to_netcdf` resolves the output path with `os.path.abspath` (the identity on
the already-absolute POSIX paths modelled here), attempts the single-file
write, and on *any* exception falls back to `to_daily_netcdf`, which groups
the handle by `time.date` (distinct calendar dates in ascending order, each
group keeping its rows in original order), builds one path per date with
`f"{output_dir}/{filename}_{d}{file_ext}".replace("-", "")` — note the
`replace` acts on the whole constructed path — and writes group `i` to path
`i` via `xr.save_mfdataset`.  A written file is modelled as a
(path, sub-series) pair; the Python function body has no `return` statement,
so its value is `None` in both branches. -/

/-- The calendar date of a timestamp (`time.date`): whole days since the
epoch, by floor division of epoch seconds. -/
def dateOf (t : Int) : Int := Int.ediv t 86400

/-- The (time, value) rows of a series. -/
def rows (s : TimeSeries) : List (Int × Int) := s.times.zip s.vals

/-- The group keys of `self.ds.groupby("time.date")`: the distinct calendar
dates, in ascending order. -/
def groupDates (s : TimeSeries) : List Int :=
  List.insertionSort (· ≤ ·) ((s.times.map dateOf).dedup)

/-- The group of `groupby("time.date")` for date `d`: the rows whose
timestamp falls on `d`, in original order. -/
def groupFor (s : TimeSeries) (d : Int) : TimeSeries :=
  let kept := (rows s).filter (fun r => dateOf r.1 == d)
  { times := kept.map Prod.fst, vals := kept.map Prod.snd }

/-- Split `xs` at the last occurrence of `c`: `some (before, after)` with `c`
itself dropped, or `none` when `c` does not occur. -/
def splitAtLast (c : Char) : List Char → Option (List Char × List Char)
  | [] => none
  | x :: xs =>
    match splitAtLast c xs with
    | some p => some (x :: p.1, p.2)
    | none => if x = c then some ([], xs) else none

/-- `os.path.dirname` for a normalized absolute POSIX path with a non-root
directory: everything before the last slash. -/
def dirname (p : String) : String :=
  match splitAtLast '/' p.data with
  | some pr => pr.1.asString
  | none => ""

/-- `os.path.basename`: everything after the last slash. -/
def basename (p : String) : String :=
  match splitAtLast '/' p.data with
  | some pr => pr.2.asString
  | none => p

/-- `os.path.splitext` on a basename: split at the last dot, keeping the dot
with the extension; a name whose only dot is leading, or with no dot, has no
extension. -/
def splitext (name : String) : String × String :=
  match splitAtLast '.' name.data with
  | some pr => if pr.1 = [] then (name, "") else (pr.1.asString, ('.' :: pr.2).asString)
  | none => (name, "")

/-- The `filename` component `os.path.splitext(os.path.basename(p))[0]`. -/
def stemOf (p : String) : String := (splitext (basename p)).1

/-- The `file_ext` component `os.path.splitext(os.path.basename(p))[1]`. -/
def extOf (p : String) : String := (splitext (basename p)).2

/-- `str.replace("-", "")`: drop every dash of the string. -/
def removeDashes (s : String) : String :=
  (s.data.filter (fun c => !(c == '-'))).asString

/-- Left-pad a number to two digits, as `datetime.date`'s ISO form does. -/
def pad2 (n : Nat) : String :=
  if n < 10 then "0" ++ Nat.repr n else Nat.repr n

/-- Left-pad a year to four digits, as `datetime.date`'s ISO form does. -/
def pad4 (n : Nat) : String :=
  if n < 10 then "000" ++ Nat.repr n
  else if n < 100 then "00" ++ Nat.repr n
  else if n < 1000 then "0" ++ Nat.repr n
  else Nat.repr n

/-- Proleptic Gregorian (year, month, day) of a count of days since
1970-01-01 (the standard civil-from-days conversion used by `datetime`). -/
def civilFromDays (z0 : Int) : Int × Nat × Nat :=
  let z := z0 + 719468
  let era := Int.ediv z 146097
  let doe := (z - era * 146097).toNat
  let yoe := (doe - doe / 1460 + doe / 36524 - doe / 146096) / 365
  let y := (yoe : Int) + era * 400
  let doy := doe - (365 * yoe + yoe / 4 - yoe / 100)
  let mp := (5 * doy + 2) / 153
  let dd := doy - (153 * mp + 2) / 5 + 1
  let m := if mp < 10 then mp + 3 else mp - 9
  (if m ≤ 2 then y + 1 else y, m, dd)

/-- `f"{d}"` for a `datetime.date`: the ISO form `YYYY-MM-DD`. -/
def dateStr (d : Int) : String :=
  let c := civilFromDays d
  pad4 c.1.toNat ++ "-" ++ pad2 c.2.1 ++ "-" ++ pad2 c.2.2

/-- One output path of `to_daily_netcdf`:
`f"{output_dir}/{filename}_{d}{file_ext}".replace("-", "")` — the dash
removal is applied to the entire constructed path. -/
def dailyPath (outputDir stem ext : String) (d : Int) : String :=
  removeDashes (outputDir ++ "/" ++ stem ++ "_" ++ dateStr d ++ ext)

/-- `Opendap.to_daily_netcdf` (lines 212-222): group by calendar date, build
the per-date paths, and write group `i` to path `i` (`xr.save_mfdataset`).
Returns the written (path, data) pairs; the Python method returns the path
list, which is exactly the first components. -/
def to_daily_netcdf (s : TimeSeries) (output_path : String) : List (String × TimeSeries) :=
  let outputDir := dirname output_path
  let se := splitext (basename output_path)
  (groupDates s).map (fun d => (dailyPath outputDir se.1 se.2 d, groupFor s d))

/-- `Opendap.to_netcdf` (lines 195-210).  `writeOk` is the environment oracle
for whether the single-file `self.ds.to_netcdf(...)` call succeeds (the bare
`except:` treats any failure as the size cap being exceeded).  The result is
the list of files written, paired with the Python return value: the body has
no `return`, so the caller receives `None` in both branches (the fallback's
path list is assigned to the local `output_path` and discarded). -/
def to_netcdf (s : TimeSeries) (writeOk : Bool) (output_path : String) :
    List (String × TimeSeries) × Option (String ⊕ List String) :=
  if writeOk then ([(output_path, s)], none)
  else (to_daily_netcdf s output_path, none)

/-! ### Session authentication (`_copernicusmarine_datastore`, lines 224-254)

`setup_session` talks to the CAS endpoint and returns a session whose cookie
jar is modelled here as an association list.  The source then runs
`session.cookies.set("CASTGC", session.cookies.get_dict()["CASTGC"])`; the
dictionary lookup raises `KeyError` exactly when the CAS login did not
produce the `CASTGC` ticket-granting cookie, and the bare `except:` converts
that into a `CredentialsError` carrying the supplied username, password and a
human-readable message. -/

/-- The custom exception of lines 13-20: carries the offending username and
password and a message. -/
structure CredentialsError where
  username : String
  password : String
  message  : String
deriving DecidableEq, Repr

/-- `session.cookies.get_dict()[k]` as a partial lookup. -/
def cookieGet (cookies : List (String × String)) (k : String) : Option String :=
  (cookies.find? (fun kv => kv.1 == k)).map Prod.snd

/-- The message of the raised `CredentialsError` (ANSI escapes omitted). -/
def credentialsMsg (username : String) : String :=
  "Username (" ++ username ++ ") or/and password are incorrect!"

/-- Lines 236-244: validate the CAS session.  When the `CASTGC` cookie is
present it is written back unchanged and the session proceeds; when it is
absent the lookup raises and a `CredentialsError` with the supplied
credentials is raised instead. -/
def copernicusmarineAuth (cookies : List (String × String)) (username password : String) :
    Except CredentialsError (List (String × String)) :=
  match cookieGet cookies ("CASTGC") with
  | some v => Except.ok (cookies.map (fun kv => if kv.1 == "CASTGC" then (kv.1, v) else kv))
  | none => Except.error { username := username, password := password,
                           message := credentialsMsg username }

/-! ### Dataset-identifier handling in `Opendap.__init__` (lines 83-96)

The constructor runs `self.dataset_id = dataset_id.lstrip().rstrip()` — an
`AttributeError` when `dataset_id` is the default `None`, *before* the
interactive `input(...)` fallback can run — then prompts when the stored id
is empty, and finally calls
`self._copernicusmarine_datastore(dataset_id, username, password)` with the
raw `dataset_id` parameter, not with `self.dataset_id`. -/

/-- The stored id (`self.dataset_id`) and the id actually resolved against
the catalog (the argument passed on line 96). -/
structure InitIds where
  stored   : String
  resolved : String
deriving DecidableEq, Repr

/-- The `AttributeError` of `None.lstrip()`. -/
def noneLstripMsg : String := "AttributeError: NoneType object has no attribute lstrip"

/-- `s.lstrip().rstrip()`: drop leading and trailing whitespace. -/
def pyStrip (s : String) : String :=
  ((s.data.dropWhile Char.isWhitespace).reverse.dropWhile Char.isWhitespace).reverse.asString

/-- Lines 83-96 of `Opendap.__init__`, restricted to the dataset identifier:
trim the supplied id (crashing when it is `None`), prompt interactively when
the trimmed id is empty (`promptAnswer` models the `input(...)` reply), and
resolve the raw constructor argument against the catalog. -/
def initIds (dataset_id : Option String) (promptAnswer : String) : Except String InitIds :=
  match dataset_id with
  | none => Except.error noneLstripMsg
  | some s =>
    let trimmed := pyStrip s
    let stored := if trimmed = "" then promptAnswer else trimmed
    Except.ok { stored := stored, resolved := s }

/-! ### Helper lemmas and concrete handles used by the theorems below -/

/-- A concrete handle with genuine time, longitude, latitude and depth axes
and two data variables, used to evaluate `crop` at concrete inputs. -/
def cdsA : Dataset :=
  { time := [0, 3600, 7200], longitude := [0, 1, 2], latitude := [10, 11],
    depth := [0, 1, 2],
    vars := [("u", fun _ _ _ _ => 5), ("v", fun _ _ _ _ => 6)] }

theorem adjustTimes_none (ds : Dataset) (m : String) :
    adjustTimes ds none m = Except.ok none := by
  unfold adjustTimes; split <;> rfl

theorem adjustLons_none (ds : Dataset) (m : String) :
    adjustLons ds none m = Except.ok none := by
  unfold adjustLons; split <;> rfl

theorem adjustLats_none (ds : Dataset) (m : String) :
    adjustLats ds none m = Except.ok none := by
  unfold adjustLats; split <;> rfl

/-- **C10.** A `crop` call with no variable list and no axis selectors, under
any method flag, leaves the dataset handle exactly as it was: the narrowing
stages are all skipped and `self.ds` is reassigned to itself (only the eager
`load()` attempt runs, which does not change the handle's value). -/
theorem C10_crop_no_args_identity (ds : Dataset) (fits : Bool) (method : String) :
    (crop ds fits none none none none none method).map CropResult.ds
      = Except.ok (some ds) := by
  unfold crop cropCore adjustSelectors
  rw [adjustTimes_none, adjustLons_none, adjustLats_none]
  cases fits <;> rfl

/-- **C6.** The eager realization at the end of `crop` is wrapped in a bare
`try/except`: when the narrowed result does not fit a single transfer
(`fits = false`) the call still returns normally with the same outcome of the
narrowing stages, the handle is left unrealized (`loaded = false`), and the
failure is reported via the printed warning. -/
theorem C6_load_failure_not_fatal (ds : Dataset) (vlist : Option (List String))
    (times : Option (CropSel Int)) (lons lats deps : Option (CropSel ℚ)) (method : String) :
    (∀ r : CropResult, crop ds false vlist times lons lats deps method = Except.ok r →
        r.loaded = false ∧ tooBigMsg ∈ r.warnings)
    ∧ ((crop ds false vlist times lons lats deps method).isOk
        = (crop ds true vlist times lons lats deps method).isOk)
    ∧ ((crop ds false vlist times lons lats deps method).map CropResult.ds
        = (crop ds true vlist times lons lats deps method).map CropResult.ds) := by
  unfold crop
  cases h : cropCore ds vlist times lons lats deps method with
  | error e => exact ⟨fun r hr => by simp at hr, rfl, rfl⟩
  | ok o =>
    refine ⟨?_, ?_, ?_⟩
    · intro r hr
      simp only [Bool.and_false, Bool.false_eq_true, if_false, Except.ok.injEq] at hr
      subst hr
      exact ⟨rfl, List.mem_singleton.mpr rfl⟩
    · cases o <;> rfl
    · cases o <;> rfl

/-- Closed witness for `C6_load_failure_not_fatal` at a concrete handle. -/
theorem C6_load_failure_not_fatal_witness :
    (∀ r : CropResult, crop cdsA false none none none none none "neareast_outside" = Except.ok r →
        r.loaded = false ∧ tooBigMsg ∈ r.warnings)
    ∧ ((crop cdsA false none none none none none "neareast_outside").isOk
        = (crop cdsA true none none none none none "neareast_outside").isOk)
    ∧ ((crop cdsA false none none none none none "neareast_outside").map CropResult.ds
        = (crop cdsA true none none none none none "neareast_outside").map CropResult.ds) :=
  C6_load_failure_not_fatal cdsA none none none none none "neareast_outside"

/-- **C7** (failing-input evaluation). The source narrows time, longitude,
latitude and then depth, but both depth branches address the axis as `detph`
(`self.ds.sel(detph=depths)`), an axis name that does not exist; so a depth
selector — scalar or range — makes `crop` raise instead of narrowing the
handle along its depth axis, although the handle `cdsA` has a depth axis. -/
theorem C7_depth_selector_raises :
    (crop cdsA true none none none none (some (CropSel.pt (1 : ℚ))) "neareast_outside"
        = Except.error detphMsg)
    ∧ (crop cdsA true none none none none (some (CropSel.sl (0 : ℚ) 2)) "neareast_outside"
        = Except.error detphMsg) :=
  ⟨rfl, rfl⟩

/-- **C4** (failing-input evaluation). Variable projection goes through
`Mapping.get`: with an existing name the handle keeps exactly the requested
variables, but with a missing name (`"w"`) nothing is raised — the handle is
silently replaced by `None` and the subsequent load failure is swallowed with
the misleading size warning. -/
theorem C4_missing_variable_silently_none :
    ((crop cdsA true (some ["u"]) none none none none "neareast_outside").map
        (fun r => (r.ds.map varNames, r.loaded, r.warnings))
      = Except.ok (some ["u"], true, []))
    ∧ ((crop cdsA true (some ["w"]) none none none none "neareast_outside").map
        (fun r => (r.ds.map varNames, r.loaded, r.warnings))
      = Except.ok (none, false, [tooBigMsg])) :=
  ⟨rfl, rfl⟩

/-- **C5** (failing-input evaluation). `to_netcdf` returns the Python `None`
in both branches — on a successful single-file write as much as after the
date-split fallback — so the caller cannot distinguish from the result which
of the two occurred; the fallback's path list is discarded. -/
theorem C5_to_netcdf_returns_nothing (s : TimeSeries) (writeOk : Bool) (p : String) :
    (to_netcdf s writeOk p).2 = none := by
  unfold to_netcdf; split <;> rfl

/-- **C9** (failing-input evaluation). The constructor crashes with an
`AttributeError` when the dataset id is absent (the interactive fallback is
unreachable for `None`), and it resolves the *raw* constructor argument
against the catalog: a padded id is resolved untrimmed even though the
trimmed value is stored, and even an interactively collected id is not the
one resolved. -/
theorem C9_dataset_id_handling_bug :
    (initIds none ("typed-id") = Except.error noneLstripMsg)
    ∧ ((initIds (some ("  my-dataset  ")) ("x")).map InitIds.resolved
        = Except.ok ("  my-dataset  "))
    ∧ ((initIds (some ("  my-dataset  ")) ("x")).map InitIds.stored
        = Except.ok ("my-dataset"))
    ∧ ((initIds (some ("   ")) ("typed")).map (fun i => (i.stored, i.resolved))
        = Except.ok ("typed", "   ")) :=
  ⟨rfl, rfl, rfl, rfl⟩

/-- **C8.** Session establishment raises a `CredentialsError` if and only if
the CAS endpoint did not return the `CASTGC` session ticket, and the raised
error carries exactly the supplied username, the supplied password and the
human-readable message. -/
theorem C8_credentials_error_iff (cookies : List (String × String)) (u p : String) :
    ((∃ e, copernicusmarineAuth cookies u p = Except.error e)
        ↔ cookieGet cookies ("CASTGC") = none)
    ∧ (∀ e, copernicusmarineAuth cookies u p = Except.error e →
        e.username = u ∧ e.password = p ∧ e.message = credentialsMsg u) := by
  unfold copernicusmarineAuth
  cases h : cookieGet cookies ("CASTGC") with
  | some v =>
    refine ⟨⟨fun he => ?_, fun hn => by cases hn⟩, fun e he => by cases he⟩
    obtain ⟨e, he⟩ := he
    cases he
  | none =>
    refine ⟨⟨fun _ => rfl, fun _ => ⟨_, rfl⟩⟩, fun e he => ?_⟩
    cases he
    exact ⟨rfl, rfl, rfl⟩

/-- Closed witness for `C8_credentials_error_iff`: a session whose cookie jar
has no `CASTGC` ticket. -/
theorem C8_credentials_error_iff_witness :
    ((∃ e, copernicusmarineAuth [("JSESSIONID", "x")] "alice" "pw" = Except.error e)
        ↔ cookieGet [("JSESSIONID", "x")] ("CASTGC") = none)
    ∧ (∀ e, copernicusmarineAuth [("JSESSIONID", "x")] "alice" "pw" = Except.error e →
        e.username = "alice" ∧ e.password = "pw" ∧ e.message = credentialsMsg "alice") :=
  C8_credentials_error_iff [("JSESSIONID", "x")] "alice" "pw"

/-- **C2 counterexample.** Under the default method a *depth* range is not
expanded: the selector-adjustment block of `crop` returns the depth slice
`(0, 1)` exactly as supplied, although the depth axis of `cdsA` has maximum
spacing `1`, so the claimed expanded slice `(0 - 1, 1 + 1)` differs. -/
theorem C2_depth_not_expanded :
    ((adjustSelectors cdsA none none none (some (CropSel.sl (0 : ℚ) 1)) "neareast_outside").map
        (fun q => q.2.2.2)
      = Except.ok (some (CropSel.sl (0 : ℚ) 1)))
    ∧ ((diffs cdsA.depth).max? = some 1)
    ∧ (some (CropSel.sl (0 : ℚ) 1) ≠ some (CropSel.sl ((0 : ℚ) - 1) (1 + 1))) :=
  ⟨rfl, by norm_num [cdsA, diffs, List.max?], by simp [CropSel.sl.injEq]⟩

/-- **C2 (amended).** Under the default method, a range on the time,
longitude or latitude axis has its lower bound decreased and its upper bound
increased by that axis's maximum observed sample spacing — computed from the
current handle's coordinates before any narrowing — before the inclusive
range selection is applied; a depth range is passed through unexpanded. -/
theorem C2_nearest_outside_expansion (ds : Dataset) (fits : Bool) (ta tb : Int)
    (la lb pa pb da db : ℚ) (dt : Int) (dx dy : ℚ)
    (ht : (diffs ds.time).max? = some dt)
    (hx : (diffs ds.longitude).max? = some dx)
    (hy : (diffs ds.latitude).max? = some dy) :
    (adjustSelectors ds (some (CropSel.sl ta tb)) (some (CropSel.sl la lb))
        (some (CropSel.sl pa pb)) (some (CropSel.sl da db)) "neareast_outside"
      = Except.ok (some (CropSel.sl (ta - dt) (tb + dt)),
          some (CropSel.sl (la - dx) (lb + dx)),
          some (CropSel.sl (pa - dy) (pb + dy)),
          some (CropSel.sl da db)))
    ∧ ((crop ds fits none (some (CropSel.sl ta tb)) none none none "neareast_outside").map
          (fun r => r.ds.map Dataset.time)
        = Except.ok (some (ds.time.filter
            (fun t => decide (ta - dt ≤ t) && decide (t ≤ tb + dt)))))
    ∧ ((crop ds fits none none (some (CropSel.sl la lb)) none none "neareast_outside").map
          (fun r => r.ds.map Dataset.longitude)
        = Except.ok (some (ds.longitude.filter
            (fun x => decide (la - dx ≤ x) && decide (x ≤ lb + dx)))))
    ∧ ((crop ds fits none none none (some (CropSel.sl pa pb)) none "neareast_outside").map
          (fun r => r.ds.map Dataset.latitude)
        = Except.ok (some (ds.latitude.filter
            (fun x => decide (pa - dy ≤ x) && decide (x ≤ pb + dy))))) := by
  refine ⟨?_, ?_, ?_, ?_⟩
  · unfold adjustSelectors adjustTimes adjustLons adjustLats
    simp [ht, hx, hy]
  · unfold crop cropCore adjustSelectors adjustTimes
    rw [adjustLons_none, adjustLats_none]
    simp only [if_pos rfl, ht]
    cases fits <;> rfl
  · unfold crop cropCore adjustSelectors adjustLons
    rw [adjustTimes_none, adjustLats_none]
    simp only [if_pos rfl, hx]
    cases fits <;> rfl
  · unfold crop cropCore adjustSelectors adjustLats
    rw [adjustTimes_none, adjustLons_none]
    simp only [if_pos rfl, hy]
    cases fits <;> rfl

/-- A concrete handle with two samples per axis, for witnessing the
expansion theorem (a two-sample axis has a single spacing). -/
def cdsB : Dataset :=
  { time := [0, 3600], longitude := [0, 1], latitude := [0, 1], depth := [4, 6],
    vars := [("u", fun _ _ _ _ => 5)] }

/-- Closed witness for `C2_nearest_outside_expansion` at `cdsB`. -/
theorem C2_nearest_outside_expansion_witness :
    ((diffs cdsB.time).max? = some 3600)
    ∧ ((diffs cdsB.longitude).max? = some 1)
    ∧ ((diffs cdsB.latitude).max? = some 1)
    ∧ ((adjustSelectors cdsB (some (CropSel.sl 1000 5000)) (some (CropSel.sl 0 1))
          (some (CropSel.sl 0 1)) (some (CropSel.sl 4 6)) "neareast_outside"
        = Except.ok (some (CropSel.sl (1000 - 3600) (5000 + 3600)),
            some (CropSel.sl ((0 : ℚ) - 1) (1 + 1)),
            some (CropSel.sl ((0 : ℚ) - 1) (1 + 1)),
            some (CropSel.sl (4 : ℚ) 6)))
      ∧ ((crop cdsB true none (some (CropSel.sl 1000 5000)) none none none "neareast_outside").map
            (fun r => r.ds.map Dataset.time)
          = Except.ok (some (cdsB.time.filter
              (fun t => decide (1000 - 3600 ≤ t) && decide (t ≤ 5000 + 3600)))))
      ∧ ((crop cdsB true none none (some (CropSel.sl 0 1)) none none "neareast_outside").map
            (fun r => r.ds.map Dataset.longitude)
          = Except.ok (some (cdsB.longitude.filter
              (fun x => decide ((0 : ℚ) - 1 ≤ x) && decide (x ≤ 1 + 1)))))
      ∧ ((crop cdsB true none none none (some (CropSel.sl 0 1)) none "neareast_outside").map
            (fun r => r.ds.map Dataset.latitude)
          = Except.ok (some (cdsB.latitude.filter
              (fun x => decide ((0 : ℚ) - 1 ≤ x) && decide (x ≤ 1 + 1)))))) := by
  have ht : (diffs cdsB.time).max? = some 3600 := by simp [cdsB, diffs, List.max?]
  have hx : (diffs cdsB.longitude).max? = some 1 := by simp [cdsB, diffs, List.max?]
  have hy : (diffs cdsB.latitude).max? = some 1 := by simp [cdsB, diffs, List.max?]
  exact ⟨ht, hx, hy,
    C2_nearest_outside_expansion cdsB true 1000 5000 0 1 0 1 4 6 3600 1 1 ht hx hy⟩

theorem mem_uniqueVals {v : Int} {ts : List Int} : v ∈ uniqueVals ts ↔ v ∈ ts := by
  unfold uniqueVals
  rw [(List.perm_insertionSort (· ≤ ·) ts.dedup).mem_iff, List.mem_dedup]

theorem uniqueVals_nodup (ts : List Int) : (uniqueVals ts).Nodup :=
  ((List.perm_insertionSort (· ≤ ·) ts.dedup).nodup_iff).mpr (List.nodup_dedup ts)

theorem sorted_lt_uniqueVals (ts : List Int) : List.Sorted (· < ·) (uniqueVals ts) := by
  have hs : List.Sorted (· ≤ ·) (uniqueVals ts) :=
    List.sorted_insertionSort (· ≤ ·) ts.dedup
  have hn : (uniqueVals ts).Nodup := uniqueVals_nodup ts
  exact (List.Pairwise.and hs hn).imp (fun h => lt_of_le_of_ne h.1 h.2)

theorem getD_indexOf_of_mem {v : Int} {ts : List Int} (h : v ∈ ts) :
    ts.getD (List.indexOf v ts) 0 = v := by
  have hlt : List.indexOf v ts < ts.length := List.indexOf_lt_length.mpr h
  rw [List.getD_eq_getElem ts 0 hlt]
  exact List.getElem_indexOf hlt

theorem uniqueFirstIdx_map_getD (ts : List Int) :
    (uniqueFirstIdx ts).map (fun i => ts.getD i 0) = uniqueVals ts := by
  unfold uniqueFirstIdx
  rw [List.map_map]
  have h : ∀ v ∈ uniqueVals ts,
      ((fun i => ts.getD i 0) ∘ (fun v => List.indexOf v ts)) v = id v := by
    intro v hv
    exact getD_indexOf_of_mem (mem_uniqueVals.mp hv)
  rw [List.map_congr_left h, List.map_id]

theorem uniqueVals_length_ne (ts : List Int) (h : ¬ ts.Nodup) :
    (uniqueVals ts).length ≠ ts.length := by
  intro hlen
  have h2 : (uniqueVals ts).length = ts.dedup.length :=
    (List.perm_insertionSort (· ≤ ·) ts.dedup).length_eq
  have h1 : ts.dedup.length = ts.length := by omega
  exact h (List.dedup_eq_self.mp ((List.dedup_sublist ts).eq_of_length h1))

/-- **C1.** When the freshly opened handle's time axis contains repeated
values, the load-time pass keeps exactly one sample per distinct timestamp —
the resulting axis is `np.unique` of the original (one entry per distinct
value, the same set of timestamps, no duplicates), it is strictly
increasing, and the data kept for each timestamp is the one stored at that
timestamp's earliest original index. -/
theorem C1_dedup_keeps_first_occurrences (s : TimeSeries) (hdup : ¬ s.times.Nodup) :
    (dedupRepeatedTimes s).times = uniqueVals s.times
    ∧ List.Sorted (· < ·) (dedupRepeatedTimes s).times
    ∧ (∀ v : Int, v ∈ (dedupRepeatedTimes s).times ↔ v ∈ s.times)
    ∧ (dedupRepeatedTimes s).times.Nodup
    ∧ (dedupRepeatedTimes s).vals.length = (dedupRepeatedTimes s).times.length
    ∧ (∀ k, k < (dedupRepeatedTimes s).times.length →
        (dedupRepeatedTimes s).vals.getD k 0
          = s.vals.getD (List.indexOf ((dedupRepeatedTimes s).times.getD k 0) s.times) 0) := by
  have hgate := uniqueVals_length_ne s.times hdup
  have hT : (dedupRepeatedTimes s).times = uniqueVals s.times := by
    unfold dedupRepeatedTimes
    rw [if_pos hgate]
    exact uniqueFirstIdx_map_getD s.times
  have hV : (dedupRepeatedTimes s).vals
      = (uniqueFirstIdx s.times).map (fun i => s.vals.getD i 0) := by
    unfold dedupRepeatedTimes
    rw [if_pos hgate]
  refine ⟨hT, ?_, ?_, ?_, ?_, ?_⟩
  · rw [hT]; exact sorted_lt_uniqueVals s.times
  · intro v; rw [hT]; exact mem_uniqueVals
  · rw [hT]; exact uniqueVals_nodup s.times
  · rw [hT, hV]; simp [uniqueFirstIdx]
  · intro k hk
    rw [hT] at hk
    have hkf : k < (uniqueFirstIdx s.times).length := by
      simpa [uniqueFirstIdx] using hk
    have hkm : k < ((uniqueFirstIdx s.times).map (fun i => s.vals.getD i 0)).length := by
      simpa using hkf
    rw [hV, hT]
    rw [List.getD_eq_getElem _ _ hkm, List.getElem_map]
    rw [List.getD_eq_getElem _ _ hk]
    congr 1
    unfold uniqueFirstIdx
    rw [List.getElem_map]

/-- Closed witness for `C1_dedup_keeps_first_occurrences`: the axis
`[5, 3, 5]` repeats the value `5`; the pass keeps indices 1 and 0. -/
theorem C1_dedup_keeps_first_occurrences_witness :
    (¬ ([5, 3, 5] : List Int).Nodup)
    ∧ ((dedupRepeatedTimes ⟨[5, 3, 5], [10, 20, 30]⟩).times = uniqueVals [5, 3, 5]
      ∧ List.Sorted (· < ·) (dedupRepeatedTimes ⟨[5, 3, 5], [10, 20, 30]⟩).times
      ∧ (∀ v : Int, v ∈ (dedupRepeatedTimes ⟨[5, 3, 5], [10, 20, 30]⟩).times ↔ v ∈ ([5, 3, 5] : List Int))
      ∧ (dedupRepeatedTimes ⟨[5, 3, 5], [10, 20, 30]⟩).times.Nodup
      ∧ (dedupRepeatedTimes ⟨[5, 3, 5], [10, 20, 30]⟩).vals.length
          = (dedupRepeatedTimes ⟨[5, 3, 5], [10, 20, 30]⟩).times.length
      ∧ (∀ k, k < (dedupRepeatedTimes ⟨[5, 3, 5], [10, 20, 30]⟩).times.length →
          (dedupRepeatedTimes ⟨[5, 3, 5], [10, 20, 30]⟩).vals.getD k 0
            = ([10, 20, 30] : List Int).getD
                (List.indexOf ((dedupRepeatedTimes ⟨[5, 3, 5], [10, 20, 30]⟩).times.getD k 0) [5, 3, 5]) 0)) :=
  ⟨by decide, C1_dedup_keeps_first_occurrences ⟨[5, 3, 5], [10, 20, 30]⟩ (by decide)⟩

theorem zip_map_fst_snd {α β : Type} (l : List (α × β)) :
    (l.map Prod.fst).zip (l.map Prod.snd) = l := by
  induction l with
  | nil => rfl
  | cons a t ih => simp [ih]

theorem rows_groupFor (s : TimeSeries) (d : Int) :
    rows (groupFor s d) = (rows s).filter (fun r => dateOf r.1 == d) := by
  unfold groupFor rows
  exact zip_map_fst_snd _

theorem groupDates_nodup (s : TimeSeries) : (groupDates s).Nodup :=
  ((List.perm_insertionSort (· ≤ ·) ((s.times.map dateOf).dedup)).nodup_iff).mpr
    (List.nodup_dedup _)

theorem dateOf_mem_groupDates (s : TimeSeries) :
    ∀ r ∈ rows s, dateOf r.1 ∈ groupDates s := by
  intro r hr
  have h1 : r.1 ∈ s.times := by
    obtain ⟨a, b⟩ := r
    exact (List.of_mem_zip hr).1
  exact ((List.perm_insertionSort (· ≤ ·) _).mem_iff).mpr
    (List.mem_dedup.mpr (List.mem_map_of_mem dateOf h1))

theorem flatMap_filter_perm {α : Type} (f : α → Int) :
    ∀ (keys : List Int), keys.Nodup → ∀ (l : List α), (∀ a ∈ l, f a ∈ keys) →
      (keys.flatMap (fun d => l.filter (fun a => f a == d))).Perm l := by
  intro keys
  induction keys with
  | nil =>
    intro _ l hcov
    have hl : l = [] :=
      List.eq_nil_iff_forall_not_mem.mpr (fun a ha => by simpa using hcov a ha)
    subst hl
    simp
  | cons d ks ih =>
    intro hnd l hcov
    have hdks : d ∉ ks := (List.nodup_cons.mp hnd).1
    have hks : ks.Nodup := (List.nodup_cons.mp hnd).2
    rw [List.flatMap_cons]
    have hstep : ∀ e ∈ ks, l.filter (fun a => f a == e)
        = (l.filter (fun a => !(f a == d))).filter (fun a => f a == e) := by
      intro e he
      rw [List.filter_filter]
      apply List.filter_congr
      intro a _
      by_cases hfe : f a = e
      · have hed : e ≠ d := fun h => hdks (h ▸ he)
        have h1 : (f a == e) = true := beq_iff_eq.mpr hfe
        have h2 : (f a == d) = false :=
          beq_eq_false_iff_ne.mpr (fun hd => hed (hfe.symm.trans hd))
        rw [h1, h2]
        rfl
      · have h1 : (f a == e) = false := beq_eq_false_iff_ne.mpr hfe
        rw [h1]
        simp
    have hcongr : ks.flatMap (fun e => l.filter (fun a => f a == e))
        = ks.flatMap (fun e => (l.filter (fun a => !(f a == d))).filter (fun a => f a == e)) := by
      rw [List.flatMap_def, List.flatMap_def, List.map_congr_left hstep]
    rw [hcongr]
    have hcov2 : ∀ a ∈ l.filter (fun a => !(f a == d)), f a ∈ ks := by
      intro a ha
      have hmem := List.mem_filter.mp ha
      have hne : ¬ f a = d := by simpa using hmem.2
      cases List.mem_cons.mp (hcov a hmem.1) with
      | inl h => exact absurd h hne
      | inr h => exact h
    have ihp := ih hks (l.filter (fun a => !(f a == d))) hcov2
    exact List.Perm.trans (List.Perm.append_left _ ihp) (List.filter_append_perm _ l)

theorem removeDashes_append (a b : String) :
    removeDashes (a ++ b) = removeDashes a ++ removeDashes b := by
  unfold removeDashes
  rw [String.data_append, List.filter_append]
  rfl

theorem dailyPath_eq (dir stem ext : String) (d : Int)
    (h1 : removeDashes dir = dir) (h2 : removeDashes stem = stem)
    (h3 : removeDashes ext = ext) :
    dailyPath dir stem ext d
      = dir ++ "/" ++ stem ++ "_" ++ removeDashes (dateStr d) ++ ext := by
  unfold dailyPath
  rw [removeDashes_append, removeDashes_append, removeDashes_append, removeDashes_append,
    removeDashes_append, h1, h2, h3]
  have hs : removeDashes "/" = "/" := rfl
  have hu : removeDashes "_" = "_" := rfl
  rw [hs, hu]

/-- **C3 counterexample.** The fallback applies `.replace("-", "")` to the
*whole* constructed path, not only to the date suffix: for the requested
output `/tmp/my-dir/out.nc` the two daily files land under `/tmp/mydir`, a
different directory from the requested one. -/
theorem C3_replace_mangles_directory :
    ((to_netcdf ⟨[0, 90000], [7, 8]⟩ false ("/tmp/my-dir/out.nc")).1.map Prod.fst
        = ["/tmp/mydir/out_19700101.nc", "/tmp/mydir/out_19700102.nc"])
    ∧ (∀ q ∈ (to_netcdf ⟨[0, 90000], [7, 8]⟩ false ("/tmp/my-dir/out.nc")).1.map Prod.fst,
        dirname q ≠ dirname ("/tmp/my-dir/out.nc")) := by
  constructor
  · rfl
  · decide

/-- **C3 (amended).** When the single-file write fails, export splits the
data by calendar date: one file per distinct date (ascending), each file
holding exactly the rows of its date, and the files' rows together are a
permutation of the original rows (no loss, no duplication).  Each filename is
the requested directory, base name and extension around a compact date
suffix — but because `.replace("-", "")` is applied to the whole path, the
stated filename shape (and the "same directory" placement) holds exactly
when the requested directory, base name and extension are dash-free. -/
theorem C3_daily_split (s : TimeSeries) (p : String)
    (h1 : removeDashes (dirname p) = dirname p)
    (h2 : removeDashes (stemOf p) = stemOf p)
    (h3 : removeDashes (extOf p) = extOf p) :
    ((to_netcdf s false p).1.map Prod.fst
        = (groupDates s).map (fun d =>
            dirname p ++ "/" ++ stemOf p ++ "_" ++ removeDashes (dateStr d) ++ extOf p))
    ∧ (groupDates s).Nodup
    ∧ ((to_netcdf s false p).1.length = (s.times.map dateOf).dedup.length)
    ∧ (∀ d ∈ groupDates s, ∀ r ∈ rows (groupFor s d), dateOf r.1 = d)
    ∧ ((groupDates s).flatMap (fun d => rows (groupFor s d))).Perm (rows s) := by
  refine ⟨?_, groupDates_nodup s, ?_, ?_, ?_⟩
  · show (to_daily_netcdf s p).map Prod.fst = _
    unfold to_daily_netcdf
    rw [List.map_map]
    apply List.map_congr_left
    intro d _
    exact dailyPath_eq _ _ _ d h1 h2 h3
  · show (to_daily_netcdf s p).length = _
    unfold to_daily_netcdf groupDates
    rw [List.length_map]
    exact (List.perm_insertionSort (· ≤ ·) _).length_eq
  · intro d _ r hr
    rw [rows_groupFor] at hr
    exact beq_iff_eq.mp (List.mem_filter.mp hr).2
  · have hcongr : (groupDates s).flatMap (fun d => rows (groupFor s d))
        = (groupDates s).flatMap (fun d => (rows s).filter (fun r => dateOf r.1 == d)) := by
      rw [List.flatMap_def, List.flatMap_def]
      exact congrArg List.flatten (List.map_congr_left (fun d _ => rows_groupFor s d))
    rw [hcongr]
    exact flatMap_filter_perm (fun r => dateOf r.1) (groupDates s) (groupDates_nodup s)
      (rows s) (dateOf_mem_groupDates s)

/-- Closed witness for `C3_daily_split`: a dash-free requested path and a
series spanning two calendar dates. -/
theorem C3_daily_split_witness :
    (removeDashes (dirname ("/tmp/data/out.nc")) = dirname ("/tmp/data/out.nc"))
    ∧ (removeDashes (stemOf ("/tmp/data/out.nc")) = stemOf ("/tmp/data/out.nc"))
    ∧ (removeDashes (extOf ("/tmp/data/out.nc")) = extOf ("/tmp/data/out.nc"))
    ∧ (((to_netcdf ⟨[0, 90000], [7, 8]⟩ false ("/tmp/data/out.nc")).1.map Prod.fst
          = (groupDates ⟨[0, 90000], [7, 8]⟩).map (fun d =>
              dirname ("/tmp/data/out.nc") ++ "/" ++ stemOf ("/tmp/data/out.nc") ++ "_"
                ++ removeDashes (dateStr d) ++ extOf ("/tmp/data/out.nc")))
      ∧ (groupDates ⟨[0, 90000], [7, 8]⟩).Nodup
      ∧ ((to_netcdf ⟨[0, 90000], [7, 8]⟩ false ("/tmp/data/out.nc")).1.length
          = (([0, 90000] : List Int).map dateOf).dedup.length)
      ∧ (∀ d ∈ groupDates ⟨[0, 90000], [7, 8]⟩,
          ∀ r ∈ rows (groupFor ⟨[0, 90000], [7, 8]⟩ d), dateOf r.1 = d)
      ∧ ((groupDates ⟨[0, 90000], [7, 8]⟩).flatMap
            (fun d => rows (groupFor ⟨[0, 90000], [7, 8]⟩ d))).Perm
          (rows ⟨[0, 90000], [7, 8]⟩)) :=
  ⟨rfl, rfl, rfl, C3_daily_split ⟨[0, 90000], [7, 8]⟩ ("/tmp/data/out.nc") rfl rfl rfl⟩
